import Mathlib

/-!
Shallow embedding of `src/tracker_app.py` (multi-tracker comparison app),
centred on the function `run_tracking`.

Modelling choices, all read off the source:

* Python dicts (`trackers`, `lost`, `survival`) are insertion-ordered maps;
  they are embedded as association lists with the exact dict semantics:
  assignment to an existing key overwrites in place (keeping its position),
  assignment to a fresh key appends.  `trackers` values are opaque tracker
  objects (or `None` for the template pseudo-entry) and are only ever used
  to call `update`, whose result is supplied per frame by an oracle, so the
  `trackers` dict is embedded by its ordered key list.
* External OpenCV calls are oracles: `cv2.cvtColor` and the composite
  `cv2.matchTemplate` + `cv2.minMaxLoc` are function fields of `Config`;
  `tracker.update(frame)` results (already coerced through `int(v)`) are a
  field of the per-frame data, keyed by tracker name; the per-frame
  `waitKey` quit check is a boolean field of the per-frame data.
* Success of `create_tracker(m)` followed by `t.init(...)` (line 72-73) is
  an oracle `initOk : Nat → Bool` indexed by the position in the `methods`
  list; `create_tracker` deterministically fails on names other than
  csrt/kcf/mosse (after lowercasing), which is kept explicit.
* Confidences (`max_val`) are embedded as rationals; the threshold `0.5`
  of line 102 is `1/2`.
-/

namespace TrackerApp

/-- A bounding box `(x, y, w, h)` as produced by `[int(v) for v in bbox]`. -/
abbrev Rect := Int × Int × Int × Int

/-- Python dict lookup `d[k]` / `d.get(k)` on an association list. -/
def dget {α : Type} : List (String × α) → String → Option α
  | [], _ => none
  | (k, v) :: rest, key => if k = key then some v else dget rest key

/-- Python `d.get(k, dflt)`. -/
def dgetD {α : Type} (d : List (String × α)) (key : String) (dflt : α) : α :=
  (dget d key).getD dflt

/-- Python dict assignment `d[k] = v`: overwrite in place if the key is
present (keeping insertion order), append otherwise. -/
def dinsert {α : Type} (key : String) (v : α) : List (String × α) → List (String × α)
  | [] => [(key, v)]
  | (k, w) :: rest => if k = key then (key, v) :: rest else (k, w) :: dinsert key v rest

/-- Effect of `trackers[m] = t` on the ordered key list of the dict. -/
def kinsert (key : String) (l : List String) : List String :=
  if key ∈ l then l else l ++ [key]

/-- Oracles for the external image operations used by `run_tracking`:
`cvtColor` is `cv2.cvtColor(frame, COLOR_BGR2GRAY)`, `matchFn` is the
composite `cv2.minMaxLoc(cv2.matchTemplate(gray, template, TM_CCOEFF_NORMED))`
returning `(max_val, max_loc)`, and `template` is the fixed grayscale crop
`first_gray[y:y+h, x:x+w].copy()` taken before the loop and never mutated. -/
structure Config (Image : Type) where
  cvtColor : Image → Image
  matchFn : Image → Image → ℚ × (Int × Int)
  template : Image

/-- One frame successfully read by `cap.read()`, together with the external
outcomes observed while processing it: `updateRes name` is the value of
`tracker.update(frame)` for the built-in tracker `name` (bbox already
coerced through `int`), and `quitKey` is whether the `waitKey` poll after
display returned ESC or the q key. -/
structure FrameData (Image : Type) where
  frame : Image
  updateRes : String → Bool × Rect
  quitKey : Bool

/-- The mutable state of `run_tracking` during the frame loop: the ordered
key list of the `trackers` dict, the `lost` and `survival` dicts, the
`use_template` flag and the `total_frames` counter. -/
structure LoopState where
  trackers : List String
  lost : List (String × Bool)
  survival : List (String × Nat)
  use_template : Bool
  total_frames : Nat
deriving DecidableEq

/-- The match step of lines 97-99: grayscale conversion of the current
frame followed by template matching against the fixed template. -/
def matchStep {Image : Type} (cfg : Config Image) (fd : FrameData Image) : ℚ × (Int × Int) :=
  cfg.matchFn (cfg.cvtColor fd.frame) cfg.template

/-- The loss threshold of line 102 (`threshold = 0.5`). -/
def threshold : ℚ := mkRat 1 2

/-- The template-matching block of lines 96-112: when the template method
is in use and not yet lost, compare `max_val` against the threshold and
either mark the template entry lost or increment its survival count. -/
def templateStep {Image : Type} (cfg : Config Image) (fd : FrameData Image)
    (s : LoopState) : LoopState :=
  if s.use_template = true ∧ dgetD s.lost "template" false = false then
    if (matchStep cfg fd).1 < threshold then
      { s with lost := dinsert "template" true s.lost }
    else
      { s with survival := dinsert "template" (dgetD s.survival "template" 0 + 1) s.survival }
  else s

/-- One iteration of the built-in tracker loop of lines 115-131 for the
dict entry `name`: skip the template pseudo-entry, skip entries already
lost (`lost.get(name, True)`), otherwise consume the update result and
either mark lost (failure, or non-positive width or height) or increment
survival. -/
def builtinStep {Image : Type} (fd : FrameData Image) (name : String)
    (s : LoopState) : LoopState :=
  if name = "template" then s
  else if dgetD s.lost name true = true then s
  else if (fd.updateRes name).1 = false then
    { s with lost := dinsert name true s.lost }
  else if (fd.updateRes name).2.2.2.1 ≤ 0 ∨ (fd.updateRes name).2.2.2.2 ≤ 0 then
    { s with lost := dinsert name true s.lost }
  else
    { s with survival := dinsert name (dgetD s.survival name 0 + 1) s.survival }

/-- The `for name, tracker in trackers.items()` loop of lines 115-131,
iterating over the ordered key list of the `trackers` dict. -/
def builtinLoop {Image : Type} (fd : FrameData Image) :
    List String → LoopState → LoopState
  | [], s => s
  | n :: rest, s => builtinLoop fd rest (builtinStep fd n s)

/-- Processing of one frame (lines 91-146): increment `total_frames`, run
the template block, then run the built-in tracker loop. -/
def stepFrame {Image : Type} (cfg : Config Image) (fd : FrameData Image)
    (s : LoopState) : LoopState :=
  builtinLoop fd (templateStep cfg fd { s with total_frames := s.total_frames + 1 }).trackers
    (templateStep cfg fd { s with total_frames := s.total_frames + 1 })

/-- The `while True` frame loop of lines 87-154: the list holds the frames
`cap.read()` will deliver before reporting failure; after processing a
frame, the loop breaks if the quit key was pressed. -/
def runFrames {Image : Type} (cfg : Config Image) :
    List (FrameData Image) → LoopState → LoopState
  | [], s => s
  | fd :: rest, s =>
    if fd.quitKey then stepFrame cfg fd s
    else runFrames cfg rest (stepFrame cfg fd s)

/-- Python's `str.lower()` on the ASCII method names handled here. -/
def pyLower (s : String) : String :=
  String.mk (s.data.map Char.toLower)

/-- Whether `create_tracker` can succeed on this name (lines 9-28): it
lowercases its argument and raises for anything other than the three
supported built-in kinds. -/
def isBuiltinName (m : String) : Bool :=
  pyLower m = "csrt" || pyLower m = "kcf" || pyLower m = "mosse"

/-- The dicts built during the setup phase of lines 54-79, together with
the list of method names for which a `[WARN] Could not create tracker`
message was printed (one occurrence per failed attempt). -/
structure InitResult where
  trackers : List String
  lost : List (String × Bool)
  survival : List (String × Nat)
  warned : List String
  use_template : Bool
deriving DecidableEq

/-- The `for m in methods` setup loop of lines 68-79: skip `"template"`;
for other names, a successful `create_tracker(m)` + `t.init(...)` (the
oracle `initOk` at the position of the attempt, conjoined with the name
being a supported kind) adds the name to all three dicts, and any raised
exception is caught and logged as a warning. -/
def initBuiltins (initOk : Nat → Bool) : List String → Nat → InitResult → InitResult
  | [], _, acc => acc
  | m :: rest, i, acc =>
    if m = "template" then initBuiltins initOk rest (i + 1) acc
    else if isBuiltinName m && initOk i then
      initBuiltins initOk rest (i + 1)
        { acc with
          trackers := kinsert m acc.trackers
          lost := dinsert m false acc.lost
          survival := dinsert m 0 acc.survival }
    else
      initBuiltins initOk rest (i + 1) { acc with warned := acc.warned ++ [m] }

/-- The whole setup phase of lines 54-79: the template pseudo-entry is
created first and unconditionally whenever `"template" in methods`
(lines 57-65), then the built-in methods are attempted in order. -/
def initTrackers (methods : List String) (initOk : Nat → Bool) : InitResult :=
  initBuiltins initOk methods 0
    (if "template" ∈ methods then
      { trackers := ["template"], lost := [("template", false)],
        survival := [("template", 0)], warned := [], use_template := true }
    else
      { trackers := [], lost := [], survival := [], warned := [], use_template := false })

/-- The loop state at line 85, just before the frame loop starts. -/
def mkState (r : InitResult) : LoopState :=
  { trackers := r.trackers, lost := r.lost, survival := r.survival,
    use_template := r.use_template, total_frames := 0 }

/-- Python `f"\x7bname:9s\x7d"`: left-justify the name in a field of width
at least 9, padding with spaces. -/
def padName (n : String) : String :=
  n ++ String.mk (List.replicate (9 - n.length) ' ')

/-- One summary line of line 163. -/
def reportLine (name : String) (count total : Nat) : String :=
  padName name ++ ": survived " ++ toString count ++ " / " ++ toString total ++ " frames"

/-- The lines printed by the summary block of lines 160-163: a blank line
and a banner (from the single `print` with a leading newline), the total
line, then one line per entry of the `survival` dict in its insertion
order. -/
def summaryReport (s : LoopState) : List String :=
  "" :: "=== Tracking survival summary ===" ::
    ("Total frames processed: " ++ toString s.total_frames) ::
    s.survival.map (fun p => reportLine p.1 p.2 s.total_frames)

/-- The whole of `run_tracking` from the point where the ROI has been
accepted (line 54) to the end: build the dicts, abort with the
`no valid trackers` error of line 82 when nothing was initialized (in
which case no frame is consumed and no summary printed), otherwise run
the frame loop and print the summary. -/
def run_tracking {Image : Type} (methods : List String) (initOk : Nat → Bool)
    (cfg : Config Image) (frames : List (FrameData Image)) :
    Except String (LoopState × List String) :=
  if (initTrackers methods initOk).trackers.isEmpty then
    Except.error "[ERROR] No valid trackers initialized. Exiting."
  else
    Except.ok (runFrames cfg frames (mkState (initTrackers methods initOk)),
      summaryReport (runFrames cfg frames (mkState (initTrackers methods initOk))))

/-- The final-report shape as the specification words it: the total line
followed directly by lines of the exact form
`<name>: survived <survivedFrames> / <totalFrames> frames`.  Stated for
comparison with `summaryReport`, which is read off the source. -/
def specReportForm (s : LoopState) : List String :=
  ("Total frames processed: " ++ toString s.total_frames) ::
    s.survival.map (fun p =>
      p.1 ++ ": survived " ++ toString p.2 ++ " / " ++ toString s.total_frames ++ " frames")

/-- Oracle under which every `create_tracker` + `init` attempt succeeds. -/
def initOkAll : Nat → Bool := fun _ => true

/-- Oracle under which every `create_tracker` + `init` attempt raises. -/
def initOkNone : Nat → Bool := fun _ => false

/-- Oracle under which only the attempt at position 1 succeeds. -/
def initOkSecond : Nat → Bool := fun i => i.beq 1

/-- A concrete environment over one-pixel rational images: grayscale
conversion is the identity and the matcher reports the gray value of the
frame as its confidence. -/
def qCfg : Config ℚ := { cvtColor := id, matchFn := fun g _ => (g, (0, 0)), template := 0 }

/-- A frame whose gray value is `c`, on which every built-in update
reports failure and no quit key is pressed. -/
def qFrame (c : ℚ) : FrameData ℚ :=
  { frame := c, updateRes := fun _ => (false, (0, 0, 0, 0)), quitKey := false }

/-- Frames realising the template confidence sequence 0.9, 0.8, 0.4, 0.9. -/
def tmFrames : List (FrameData ℚ) :=
  [qFrame (mkRat 9 10), qFrame (mkRat 8 10), qFrame (mkRat 4 10), qFrame (mkRat 9 10)]

/-- The loop state of a template-only session just before the frame loop. -/
def tmInit : LoopState :=
  { trackers := ["template"], lost := [("template", false)], survival := [("template", 0)],
    use_template := true, total_frames := 0 }

/-- A frame on which every built-in update reports success with the
degenerate bounding box `(10, 10, 0, 5)` of zero width. -/
def badFrame : FrameData ℚ :=
  { frame := 0, updateRes := fun _ => (true, (10, 10, 0, 5)), quitKey := false }

/-- A frame on which every built-in update reports success with a proper
bounding box, and the template confidence is 0.9. -/
def okFrame : FrameData ℚ :=
  { frame := mkRat 9 10, updateRes := fun _ => (true, (10, 10, 5, 5)), quitKey := false }

/-- An environment whose grayscale conversion forgets the frame, so that
two distinct frames can have the same grayscale image. -/
def c9Cfg : Config ℚ :=
  { cvtColor := fun _ => mkRat 3 5, matchFn := fun g _ => (g, (0, 0)), template := 0 }

/-- The dicts produced by the setup phase are well formed: the key list
of `trackers` has no duplicates, `lost` and `survival` have exactly the
same keys in the same order, every `lost` value is `False` and every
`survival` value is `0`. -/
def GoodInit (r : InitResult) : Prop :=
  r.trackers.Nodup ∧ r.lost.map Prod.fst = r.trackers ∧
    r.survival.map Prod.fst = r.trackers ∧
    (∀ p ∈ r.lost, p.2 = false) ∧ (∀ p ∈ r.survival, p.2 = 0)

/-- Key discipline of a loop state: the `survival` dict is keyed exactly
by the `trackers` key list, and the template pseudo-entry is present
whenever the template method is in use. -/
def Keyed (s : LoopState) : Prop :=
  s.survival.map Prod.fst = s.trackers ∧
    (s.use_template = true → "template" ∈ s.trackers)

/-- A mid-session state in which the csrt entry is already lost with a
survival count of 5. -/
def c1State : LoopState :=
  { trackers := ["csrt"], lost := [("csrt", true)], survival := [("csrt", 5)],
    use_template := false, total_frames := 7 }

/-- Final state of a csrt-only session over the single frame `okFrame`. -/
def c2Final : LoopState :=
  { trackers := ["csrt"], lost := [("csrt", false)], survival := [("csrt", 1)],
    use_template := false, total_frames := 1 }

/-- Final state of a template-only session over `tmFrames`. -/
def tmFinal : LoopState :=
  { trackers := ["template"], lost := [("template", true)], survival := [("template", 2)],
    use_template := true, total_frames := 4 }

/-- Final state of a csrt-only session over the single frame `badFrame`. -/
def c4Final : LoopState :=
  { trackers := ["csrt"], lost := [("csrt", true)], survival := [("csrt", 0)],
    use_template := false, total_frames := 1 }

/-- Looking up a key just assigned returns the assigned value. -/
theorem dget_dinsert_self {α : Type} (d : List (String × α)) (k : String) (v : α) :
    dget (dinsert k v d) k = some v := by
  induction d with
  | nil => simp [dinsert, dget]
  | cons p rest ih =>
    obtain ⟨k2, v2⟩ := p
    by_cases h : k2 = k
    · simp [dinsert, h, dget]
    · simp [dinsert, h, dget, ih]

/-- Assigning one key leaves every other key unchanged. -/
theorem dget_dinsert_ne {α : Type} (d : List (String × α)) {k k2 : String} (v : α)
    (h : k2 ≠ k) : dget (dinsert k v d) k2 = dget d k2 := by
  induction d with
  | nil => simp [dinsert, dget, Ne.symm h]
  | cons p rest ih =>
    obtain ⟨k3, v3⟩ := p
    by_cases h3 : k3 = k
    · subst h3
      simp [dinsert, dget, Ne.symm h]
    · simp only [dinsert, if_neg h3, dget]
      by_cases h2 : k3 = k2
      · simp [h2]
      · simp [h2, ih]

/-- A successful lookup exhibits a member of the association list. -/
theorem mem_of_dget {α : Type} {d : List (String × α)} {k : String} {v : α}
    (h : dget d k = some v) : (k, v) ∈ d := by
  induction d with
  | nil => simp [dget] at h
  | cons p rest ih =>
    obtain ⟨k2, v2⟩ := p
    by_cases h2 : k2 = k
    · subst h2
      simp [dget] at h
      simp [h]
    · simp only [dget, if_neg h2] at h
      exact List.mem_cons_of_mem _ (ih h)

/-- Lookup of an absent key fails. -/
theorem dget_eq_none {α : Type} {d : List (String × α)} {k : String}
    (h : k ∉ d.map Prod.fst) : dget d k = none := by
  induction d with
  | nil => simp [dget]
  | cons p rest ih =>
    obtain ⟨k2, v2⟩ := p
    simp only [List.map_cons, List.mem_cons] at h
    push_neg at h
    simp [dget, Ne.symm h.1, ih h.2]

/-- Assigning an existing key keeps the key list unchanged. -/
theorem keys_dinsert_mem {α : Type} {d : List (String × α)} {k : String} (v : α)
    (h : k ∈ d.map Prod.fst) : (dinsert k v d).map Prod.fst = d.map Prod.fst := by
  induction d with
  | nil => simp at h
  | cons p rest ih =>
    obtain ⟨k2, v2⟩ := p
    by_cases h2 : k2 = k
    · simp [dinsert, h2]
    · simp only [List.map_cons, List.mem_cons] at h
      rcases h with h | h

      · exact absurd h.symm h2
      · simp [dinsert, if_neg h2, ih h]

/-- Assigning a fresh key appends it to the key list. -/
theorem keys_dinsert_not_mem {α : Type} {d : List (String × α)} {k : String} (v : α)
    (h : k ∉ d.map Prod.fst) : (dinsert k v d).map Prod.fst = d.map Prod.fst ++ [k] := by
  induction d with
  | nil => simp [dinsert]
  | cons p rest ih =>
    obtain ⟨k2, v2⟩ := p
    simp only [List.map_cons, List.mem_cons] at h
    push_neg at h
    simp [dinsert, Ne.symm h.1, ih h.2]

/-- Every member of the updated list is the new pair or an old member. -/
theorem mem_dinsert_elim {α : Type} {d : List (String × α)} {k : String} {v : α}
    {p : String × α} (h : p ∈ dinsert k v d) : p = (k, v) ∨ p ∈ d := by
  induction d with
  | nil => simp [dinsert] at h; simp [h]
  | cons q rest ih =>
    obtain ⟨k2, v2⟩ := q
    by_cases h2 : k2 = k
    · simp only [dinsert, if_pos h2, List.mem_cons] at h
      rcases h with h | h
      · exact Or.inl h
      · exact Or.inr (List.mem_cons_of_mem _ h)
    · simp only [dinsert, if_neg h2, List.mem_cons] at h
      rcases h with h | h
      · exact Or.inr (by simp [h])
      · rcases ih h with h3 | h3
        · exact Or.inl h3
        · exact Or.inr (List.mem_cons_of_mem _ h3)

/-- The inserted key is in the key list after `kinsert`. -/
theorem mem_kinsert_self (k : String) (l : List String) : k ∈ kinsert k l := by
  unfold kinsert
  split
  · assumption
  · simp

/-- `kinsert` preserves membership of the key list. -/
theorem mem_kinsert_mono {a : String} {l : List String} (k : String) (h : a ∈ l) :
    a ∈ kinsert k l := by
  unfold kinsert
  split
  · exact h
  · simp [h]

/-- A name distinct from the inserted key and absent before stays absent. -/
theorem not_mem_kinsert {a k : String} {l : List String} (h1 : a ≠ k) (h2 : a ∉ l) :
    a ∉ kinsert k l := by
  unfold kinsert
  split
  · exact h2
  · simp [h1, h2]

/-- `kinsert` preserves freedom from duplicates of the key list. -/
theorem nodup_kinsert (k : String) {l : List String} (h : l.Nodup) :
    (kinsert k l).Nodup := by
  unfold kinsert
  split
  · exact h
  · next hk =>
    simp [List.nodup_append, h, hk]

/-- One built-in iteration never touches the `trackers` key list. -/
theorem builtinStep_trackers {Image : Type} (fd : FrameData Image) (n : String)
    (s : LoopState) : (builtinStep fd n s).trackers = s.trackers := by
  unfold builtinStep
  repeat' split
  all_goals rfl

/-- One built-in iteration never touches the frame counter. -/
theorem builtinStep_total {Image : Type} (fd : FrameData Image) (n : String)
    (s : LoopState) : (builtinStep fd n s).total_frames = s.total_frames := by
  unfold builtinStep
  repeat' split
  all_goals rfl

/-- One built-in iteration never touches the `use_template` flag. -/
theorem builtinStep_ut {Image : Type} (fd : FrameData Image) (n : String)
    (s : LoopState) : (builtinStep fd n s).use_template = s.use_template := by
  unfold builtinStep
  repeat' split
  all_goals rfl

/-- One built-in iteration leaves the `lost` entry of any other name alone. -/
theorem builtinStep_lost_ne {Image : Type} (fd : FrameData Image) {k n : String}
    (s : LoopState) (h : k ≠ n) :
    dget (builtinStep fd n s).lost k = dget s.lost k := by
  unfold builtinStep
  repeat' split
  all_goals simp [dget_dinsert_ne _ _ h]

/-- One built-in iteration leaves the `survival` entry of any other name alone. -/
theorem builtinStep_surv_ne {Image : Type} (fd : FrameData Image) {k n : String}
    (s : LoopState) (h : k ≠ n) :
    dget (builtinStep fd n s).survival k = dget s.survival k := by
  unfold builtinStep
  repeat' split
  all_goals simp [dget_dinsert_ne _ _ h]

/-- The built-in loop body skips an entry whose `lost` flag reads true. -/
theorem builtinStep_skip {Image : Type} (fd : FrameData Image) (n : String)
    (s : LoopState) (h : dgetD s.lost n true = true) : builtinStep fd n s = s := by
  unfold builtinStep
  by_cases ht : n = "template"
  · rw [if_pos ht]
  · rw [if_neg ht, if_pos h]

/-- The built-in loop body skips the template pseudo-entry (line 116-117). -/
theorem builtinStep_template {Image : Type} (fd : FrameData Image) (s : LoopState) :
    builtinStep fd "template" s = s := by
  unfold builtinStep
  rw [if_pos rfl]

/-- An entry whose `lost` flag is true keeps it true and keeps its
survival count through one built-in iteration. -/
theorem builtinStep_lost_true {Image : Type} (fd : FrameData Image) {k : String}
    (n : String) (s : LoopState) (h : dget s.lost k = some true) :
    dget (builtinStep fd n s).lost k = some true ∧
      dget (builtinStep fd n s).survival k = dget s.survival k := by
  by_cases hkn : k = n
  · subst hkn
    rw [builtinStep_skip fd k s (by simp [dgetD, h])]
    exact ⟨h, rfl⟩
  · constructor
    · rw [builtinStep_lost_ne fd s hkn]
      exact h
    · exact builtinStep_surv_ne fd s hkn

/-- One built-in iteration raises any survival count by at most one. -/
theorem builtinStep_surv_le {Image : Type} (fd : FrameData Image) (n k : String)
    (s : LoopState) :
    dgetD (builtinStep fd n s).survival k 0 ≤ dgetD s.survival k 0 + 1 := by
  unfold builtinStep
  repeat' split
  all_goals try exact Nat.le_succ _
  by_cases hk : k = n
  · subst hk
    simp [dgetD, dget_dinsert_self]
  · simp only [dgetD, dget_dinsert_ne _ _ hk]
    exact Nat.le_succ _

/-- One built-in iteration for a name already keyed in `survival` leaves
the key list of `survival` unchanged. -/
theorem builtinStep_keys {Image : Type} (fd : FrameData Image) (n : String)
    (s : LoopState) (h : n ∈ s.survival.map Prod.fst) :
    (builtinStep fd n s).survival.map Prod.fst = s.survival.map Prod.fst := by
  unfold builtinStep
  repeat' split
  all_goals simp [keys_dinsert_mem _ h]

/-- Behaviour of one built-in iteration on a live entry: a reported
failure or a degenerate box marks it lost, otherwise its survival count
is incremented. -/
theorem builtinStep_active {Image : Type} (fd : FrameData Image) (n : String)
    (s : LoopState) (hn : n ≠ "template") (hl : dget s.lost n = some false) :
    ((fd.updateRes n).1 = false ∨ (fd.updateRes n).2.2.2.1 ≤ 0 ∨
        (fd.updateRes n).2.2.2.2 ≤ 0 →
      builtinStep fd n s = { s with lost := dinsert n true s.lost }) ∧
    ((fd.updateRes n).1 = true → 0 < (fd.updateRes n).2.2.2.1 →
        0 < (fd.updateRes n).2.2.2.2 →
      builtinStep fd n s
        = { s with survival := dinsert n (dgetD s.survival n 0 + 1) s.survival }) := by
  have hg : ¬ dgetD s.lost n true = true := by simp [dgetD, hl]
  constructor
  · intro hbad
    unfold builtinStep
    rw [if_neg hn, if_neg hg]
    by_cases hok : (fd.updateRes n).1 = false
    · rw [if_pos hok]
    · rcases hbad with hb | hb
      · exact absurd hb hok
      · rw [if_neg hok, if_pos hb]
  · intro hok hw hh
    unfold builtinStep
    rw [if_neg hn, if_neg hg, if_neg (by simp [hok]),
      if_neg (by rw [not_or]; exact ⟨not_le.mpr hw, not_le.mpr hh⟩)]

/-- The built-in loop never touches the `trackers` key list. -/
theorem builtinLoop_trackers {Image : Type} (fd : FrameData Image) (l : List String)
    (s : LoopState) : (builtinLoop fd l s).trackers = s.trackers := by
  induction l generalizing s with
  | nil => rfl
  | cons n rest ih => rw [builtinLoop, ih, builtinStep_trackers]

/-- The built-in loop never touches the frame counter. -/
theorem builtinLoop_total {Image : Type} (fd : FrameData Image) (l : List String)
    (s : LoopState) : (builtinLoop fd l s).total_frames = s.total_frames := by
  induction l generalizing s with
  | nil => rfl
  | cons n rest ih => rw [builtinLoop, ih, builtinStep_total]

/-- The built-in loop never touches the `use_template` flag. -/
theorem builtinLoop_ut {Image : Type} (fd : FrameData Image) (l : List String)
    (s : LoopState) : (builtinLoop fd l s).use_template = s.use_template := by
  induction l generalizing s with
  | nil => rfl
  | cons n rest ih => rw [builtinLoop, ih, builtinStep_ut]

/-- The built-in loop leaves the dict entries of any name it does not
visit alone. -/
theorem builtinLoop_not_mem {Image : Type} (fd : FrameData Image) {k : String}
    {l : List String} (s : LoopState) (h : k ∉ l) :
    dget (builtinLoop fd l s).lost k = dget s.lost k ∧
      dget (builtinLoop fd l s).survival k = dget s.survival k := by
  induction l generalizing s with
  | nil => exact ⟨rfl, rfl⟩
  | cons n rest ih =>
    simp only [List.mem_cons] at h
    push_neg at h
    rw [builtinLoop]
    obtain ⟨ih1, ih2⟩ := ih (builtinStep fd n s) h.2
    exact ⟨ih1.trans (builtinStep_lost_ne fd s h.1),
      ih2.trans (builtinStep_surv_ne fd s h.1)⟩

/-- An entry lost before the built-in loop is still lost after it, with
its survival count untouched. -/
theorem builtinLoop_lost_true {Image : Type} (fd : FrameData Image) {k : String}
    (l : List String) (s : LoopState) (h : dget s.lost k = some true) :
    dget (builtinLoop fd l s).lost k = some true ∧
      dget (builtinLoop fd l s).survival k = dget s.survival k := by
  induction l generalizing s with
  | nil => exact ⟨h, rfl⟩
  | cons n rest ih =>
    rw [builtinLoop]
    obtain ⟨h1, h2⟩ := builtinStep_lost_true fd n s h
    obtain ⟨ih1, ih2⟩ := ih (builtinStep fd n s) h1
    exact ⟨ih1, ih2.trans h2⟩

/-- The built-in loop leaves the template pseudo-entry alone. -/
theorem builtinLoop_template {Image : Type} (fd : FrameData Image)
    (l : List String) (s : LoopState) :
    dget (builtinLoop fd l s).lost "template" = dget s.lost "template" ∧
      dget (builtinLoop fd l s).survival "template" = dget s.survival "template" := by
  induction l generalizing s with
  | nil => exact ⟨rfl, rfl⟩
  | cons n rest ih =>
    rw [builtinLoop]
    by_cases hn : n = "template"
    · subst hn
      rw [builtinStep_template]
      exact ih s
    · obtain ⟨ih1, ih2⟩ := ih (builtinStep fd n s)
      exact ⟨ih1.trans (builtinStep_lost_ne fd s (Ne.symm hn)),
        ih2.trans (builtinStep_surv_ne fd s (Ne.symm hn))⟩

/-- Over a duplicate-free name list, the built-in loop raises any
survival count by at most one. -/
theorem builtinLoop_surv_le {Image : Type} (fd : FrameData Image) {l : List String}
    (k : String) (s : LoopState) (hnd : l.Nodup) :
    dgetD (builtinLoop fd l s).survival k 0 ≤ dgetD s.survival k 0 + 1 := by
  induction l generalizing s with
  | nil => exact Nat.le_succ _
  | cons n rest ih =>
    rw [List.nodup_cons] at hnd
    rw [builtinLoop]
    by_cases hk : k = n
    · subst hk
      have hfix := (builtinLoop_not_mem fd (builtinStep fd k s) hnd.1).2
      calc dgetD (builtinLoop fd rest (builtinStep fd k s)).survival k 0
          = dgetD (builtinStep fd k s).survival k 0 := by rw [dgetD, hfix]; rfl
        _ ≤ dgetD s.survival k 0 + 1 := builtinStep_surv_le fd k k s
    · calc dgetD (builtinLoop fd rest (builtinStep fd n s)).survival k 0
          ≤ dgetD (builtinStep fd n s).survival k 0 + 1 := ih _ hnd.2
        _ = dgetD s.survival k 0 + 1 := by rw [dgetD, builtinStep_surv_ne fd s hk]; rfl

/-- If every visited name is already keyed in `survival`, the built-in
loop leaves the key list of `survival` unchanged. -/
theorem builtinLoop_keys {Image : Type} (fd : FrameData Image) {l : List String}
    (s : LoopState) (h : ∀ n ∈ l, n ∈ s.survival.map Prod.fst) :
    (builtinLoop fd l s).survival.map Prod.fst = s.survival.map Prod.fst := by
  induction l generalizing s with
  | nil => rfl
  | cons n rest ih =>
    rw [builtinLoop]
    have hstep := builtinStep_keys fd n s (h n (List.mem_cons_self n rest))
    rw [ih (builtinStep fd n s) (fun m hm => by
      rw [hstep]; exact h m (List.mem_cons_of_mem n hm)), hstep]

/-- The built-in loop splits along a split of the visited name list. -/
theorem builtinLoop_append {Image : Type} (fd : FrameData Image) (l1 l2 : List String)
    (s : LoopState) :
    builtinLoop fd (l1 ++ l2) s = builtinLoop fd l2 (builtinLoop fd l1 s) := by
  induction l1 generalizing s with
  | nil => rfl
  | cons n rest ih =>
    rw [List.cons_append, builtinLoop, builtinLoop, ih]

/-- The template block never touches the `trackers` key list, the frame
counter or the `use_template` flag. -/
theorem templateStep_frame {Image : Type} (cfg : Config Image) (fd : FrameData Image)
    (s : LoopState) :
    (templateStep cfg fd s).trackers = s.trackers ∧
      (templateStep cfg fd s).total_frames = s.total_frames ∧
      (templateStep cfg fd s).use_template = s.use_template := by
  unfold templateStep
  repeat' split
  all_goals exact ⟨rfl, rfl, rfl⟩

/-- The template block leaves the dict entries of every other name alone. -/
theorem templateStep_ne {Image : Type} (cfg : Config Image) (fd : FrameData Image)
    {k : String} (s : LoopState) (h : k ≠ "template") :
    dget (templateStep cfg fd s).lost k = dget s.lost k ∧
      dget (templateStep cfg fd s).survival k = dget s.survival k := by
  unfold templateStep
  repeat' split
  all_goals simp [dget_dinsert_ne _ _ h]

/-- The template block does nothing once the template entry is lost. -/
theorem templateStep_lost_true {Image : Type} (cfg : Config Image)
    (fd : FrameData Image) (s : LoopState)
    (h : dget s.lost "template" = some true) : templateStep cfg fd s = s := by
  unfold templateStep
  rw [if_neg]
  rintro ⟨-, h2⟩
  rw [dgetD, h] at h2
  exact absurd h2 (by simp)

/-- The template block raises any survival count by at most one. -/
theorem templateStep_surv_le {Image : Type} (cfg : Config Image) (fd : FrameData Image)
    (k : String) (s : LoopState) :
    dgetD (templateStep cfg fd s).survival k 0 ≤ dgetD s.survival k 0 + 1 := by
  unfold templateStep
  repeat' split
  all_goals try exact Nat.le_succ _
  by_cases hk : k = "template"
  · subst hk
    simp [dgetD, dget_dinsert_self]
  · simp only [dgetD, dget_dinsert_ne _ _ hk]
    exact Nat.le_succ _

/-- If the template pseudo-entry is keyed in `survival` whenever it is in
use, the template block leaves the key list of `survival` unchanged. -/
theorem templateStep_keys {Image : Type} (cfg : Config Image) (fd : FrameData Image)
    (s : LoopState)
    (h : s.use_template = true → "template" ∈ s.survival.map Prod.fst) :
    (templateStep cfg fd s).survival.map Prod.fst = s.survival.map Prod.fst := by
  unfold templateStep
  split
  · next hc =>
    split
    · rfl
    · simp [keys_dinsert_mem _ (h hc.1)]
  · rfl

/-- Behaviour of the template block on a live template entry: a
confidence below the threshold marks it lost, any other confidence
increments its survival count. -/
theorem templateStep_active {Image : Type} (cfg : Config Image) (fd : FrameData Image)
    (s : LoopState) (hut : s.use_template = true)
    (hl : dget s.lost "template" = some false) :
    ((matchStep cfg fd).1 < threshold →
      templateStep cfg fd s = { s with lost := dinsert "template" true s.lost }) ∧
    (¬ (matchStep cfg fd).1 < threshold →
      templateStep cfg fd s
        = { s with survival :=
            dinsert "template" (dgetD s.survival "template" 0 + 1) s.survival }) := by
  have hg : s.use_template = true ∧ dgetD s.lost "template" false = false := by
    exact ⟨hut, by simp [dgetD, hl]⟩
  constructor
  · intro hlow
    unfold templateStep
    rw [if_pos hg, if_pos hlow]
  · intro hhigh
    unfold templateStep
    rw [if_pos hg, if_neg hhigh]

/-- An entry whose `lost` flag is true keeps it true and keeps its
survival count through the template block. -/
theorem templateStep_lost_mono {Image : Type} (cfg : Config Image)
    (fd : FrameData Image) {k : String} (s : LoopState)
    (h : dget s.lost k = some true) :
    dget (templateStep cfg fd s).lost k = some true ∧
      dget (templateStep cfg fd s).survival k = dget s.survival k := by
  by_cases hk : k = "template"
  · subst hk
    rw [templateStep_lost_true cfg fd s h]
    exact ⟨h, rfl⟩
  · obtain ⟨h1, h2⟩ := templateStep_ne cfg fd s hk
    exact ⟨h1.trans h, h2⟩

/-- Every processed frame increments the total counter exactly once. -/
theorem stepFrame_total {Image : Type} (cfg : Config Image) (fd : FrameData Image)
    (s : LoopState) : (stepFrame cfg fd s).total_frames = s.total_frames + 1 := by
  unfold stepFrame
  rw [builtinLoop_total, (templateStep_frame cfg fd _).2.1]

/-- Processing a frame never changes the `trackers` key list. -/
theorem stepFrame_trackers {Image : Type} (cfg : Config Image) (fd : FrameData Image)
    (s : LoopState) : (stepFrame cfg fd s).trackers = s.trackers := by
  unfold stepFrame
  rw [builtinLoop_trackers, (templateStep_frame cfg fd _).1]

/-- Processing a frame never changes the `use_template` flag. -/
theorem stepFrame_ut {Image : Type} (cfg : Config Image) (fd : FrameData Image)
    (s : LoopState) : (stepFrame cfg fd s).use_template = s.use_template := by
  unfold stepFrame
  rw [builtinLoop_ut, (templateStep_frame cfg fd _).2.2]

/-- An entry lost before a frame is still lost after it, with its
survival count untouched: the frame loop skips it entirely. -/
theorem stepFrame_lost_true {Image : Type} (cfg : Config Image) (fd : FrameData Image)
    {k : String} (s : LoopState) (h : dget s.lost k = some true) :
    dget (stepFrame cfg fd s).lost k = some true ∧
      dget (stepFrame cfg fd s).survival k = dget s.survival k := by
  unfold stepFrame
  obtain ⟨h1, h2⟩ := templateStep_lost_mono cfg fd { s with total_frames := s.total_frames + 1 } h
  obtain ⟨h3, h4⟩ := builtinLoop_lost_true fd _ _ h1
  exact ⟨h3, h4.trans h2⟩

/-- Over a duplicate-free `trackers` key list, one frame raises any
survival count by at most one. -/
theorem stepFrame_surv_le {Image : Type} (cfg : Config Image) (fd : FrameData Image)
    (k : String) (s : LoopState) (hnd : s.trackers.Nodup) :
    dgetD (stepFrame cfg fd s).survival k 0 ≤ dgetD s.survival k 0 + 1 := by
  unfold stepFrame
  have hnd2 : (templateStep cfg fd { s with total_frames := s.total_frames + 1 }).trackers.Nodup := by
    rw [(templateStep_frame cfg fd _).1]
    exact hnd
  by_cases hk : k = "template"
  · subst hk
    have hfix := (builtinLoop_template fd
      (templateStep cfg fd { s with total_frames := s.total_frames + 1 }).trackers
      (templateStep cfg fd { s with total_frames := s.total_frames + 1 })).2
    rw [dgetD, hfix]
    exact templateStep_surv_le cfg fd _ _
  · have hmid := (templateStep_ne cfg fd { s with total_frames := s.total_frames + 1 } hk).2
    calc dgetD (builtinLoop fd _ (templateStep cfg fd _)).survival k 0
        ≤ dgetD (templateStep cfg fd { s with total_frames := s.total_frames + 1 }).survival k 0 + 1 :=
          builtinLoop_surv_le fd k _ hnd2
      _ = dgetD s.survival k 0 + 1 := by rw [dgetD, hmid]; rfl

/-- Under the key discipline, processing a frame leaves the key list of
`survival` (and hence the set and order of reported entries) unchanged,
and preserves the key discipline itself. -/
theorem stepFrame_keys {Image : Type} (cfg : Config Image) (fd : FrameData Image)
    (s : LoopState) (hk : Keyed s) :
    (stepFrame cfg fd s).survival.map Prod.fst = s.survival.map Prod.fst ∧
      Keyed (stepFrame cfg fd s) := by
  obtain ⟨hkeys, hut⟩ := hk
  have hmain : (stepFrame cfg fd s).survival.map Prod.fst = s.survival.map Prod.fst := by
    unfold stepFrame
    have htmpl : (templateStep cfg fd { s with total_frames := s.total_frames + 1 }).survival.map Prod.fst
        = s.survival.map Prod.fst := by
      apply templateStep_keys
      intro hu
      rw [hkeys]
      exact hut hu
    rw [builtinLoop_keys _ _ (fun n hn => by
      rw [htmpl, hkeys]
      rw [(templateStep_frame cfg fd _).1] at hn
      exact hn), htmpl]
  refine ⟨hmain, ?_, ?_⟩
  · rw [hmain, stepFrame_trackers]
    exact hkeys
  · rw [stepFrame_ut, stepFrame_trackers]
    exact hut

/-- Entries lost when the frame loop starts stay lost to its end, with
their survival counts untouched. -/
theorem runFrames_lost_true {Image : Type} (cfg : Config Image)
    (frames : List (FrameData Image)) {k : String} (s : LoopState)
    (h : dget s.lost k = some true) :
    dget (runFrames cfg frames s).lost k = some true ∧
      dget (runFrames cfg frames s).survival k = dget s.survival k := by
  induction frames generalizing s with
  | nil => exact ⟨h, rfl⟩
  | cons fd rest ih =>
    rw [runFrames]
    obtain ⟨h1, h2⟩ := stepFrame_lost_true cfg fd s h
    split
    · exact ⟨h1, h2⟩
    · obtain ⟨ih1, ih2⟩ := ih (stepFrame cfg fd s) h1
      exact ⟨ih1, ih2.trans h2⟩

/-- With no quit key pressed, the frame loop consumes every frame of the
stream and counts each exactly once. -/
theorem runFrames_total {Image : Type} (cfg : Config Image)
    (frames : List (FrameData Image)) (s : LoopState)
    (h : ∀ fd ∈ frames, fd.quitKey = false) :
    (runFrames cfg frames s).total_frames = s.total_frames + frames.length := by
  induction frames generalizing s with
  | nil => rfl
  | cons fd rest ih =>
    rw [runFrames, if_neg (by rw [h fd (List.mem_cons_self fd rest)]; exact fun hh => absurd hh (by simp))]
    rw [ih (stepFrame cfg fd s) (fun f hf => h f (List.mem_cons_of_mem fd hf)), stepFrame_total]
    simp only [List.length_cons]
    omega

/-- The frame loop preserves the key discipline, the key list of
`survival`, the `trackers` key list and the `use_template` flag. -/
theorem runFrames_keys {Image : Type} (cfg : Config Image)
    (frames : List (FrameData Image)) (s : LoopState) (hk : Keyed s) :
    (runFrames cfg frames s).survival.map Prod.fst = s.survival.map Prod.fst ∧
      (runFrames cfg frames s).trackers = s.trackers ∧
      (runFrames cfg frames s).use_template = s.use_template := by
  induction frames generalizing s with
  | nil => exact ⟨rfl, rfl, rfl⟩
  | cons fd rest ih =>
    obtain ⟨h1, h2⟩ := stepFrame_keys cfg fd s hk
    rw [runFrames]
    split
    · exact ⟨h1, stepFrame_trackers cfg fd s, stepFrame_ut cfg fd s⟩
    · obtain ⟨ih1, ih2, ih3⟩ := ih (stepFrame cfg fd s) h2
      exact ⟨ih1.trans h1, ih2.trans (stepFrame_trackers cfg fd s),
        ih3.trans (stepFrame_ut cfg fd s)⟩

/-- The survival bound: if every survival count is at most the frame
counter when the loop starts from a duplicate-free `trackers` key list,
the same holds when it ends. -/
theorem runFrames_surv_le {Image : Type} (cfg : Config Image)
    (frames : List (FrameData Image)) (s : LoopState) (hnd : s.trackers.Nodup)
    (hb : ∀ k, dgetD s.survival k 0 ≤ s.total_frames) :
    ∀ k, dgetD (runFrames cfg frames s).survival k 0
      ≤ (runFrames cfg frames s).total_frames := by
  induction frames generalizing s with
  | nil => exact hb
  | cons fd rest ih =>
    have hnd2 : (stepFrame cfg fd s).trackers.Nodup := by
      rw [stepFrame_trackers]
      exact hnd
    have hb2 : ∀ k, dgetD (stepFrame cfg fd s).survival k 0 ≤ (stepFrame cfg fd s).total_frames := by
      intro k
      rw [stepFrame_total]
      exact (stepFrame_surv_le cfg fd k s hnd).trans (Nat.add_le_add_right (hb k) 1)
    rw [runFrames]
    split
    · exact hb2
    · exact ih (stepFrame cfg fd s) hnd2 hb2

/-- The setup loop never changes the `use_template` flag. -/
theorem initBuiltins_ut (initOk : Nat → Bool) (ms : List String) (i : Nat)
    (acc : InitResult) : (initBuiltins initOk ms i acc).use_template = acc.use_template := by
  induction ms generalizing i acc with
  | nil => rfl
  | cons m rest ih =>
    rw [initBuiltins]
    by_cases h1 : m = "template"
    · rw [if_pos h1]
      exact ih _ _
    · rw [if_neg h1]
      by_cases h2 : (isBuiltinName m && initOk i) = true
      · rw [if_pos h2]
        exact ih _ _
      · rw [if_neg h2]
        exact ih _ _

/-- The setup loop only ever adds names to the `trackers` key list. -/
theorem initBuiltins_trackers_mono (initOk : Nat → Bool) (ms : List String) (i : Nat)
    (acc : InitResult) {k : String} (h : k ∈ acc.trackers) :
    k ∈ (initBuiltins initOk ms i acc).trackers := by
  induction ms generalizing i acc with
  | nil => exact h
  | cons m rest ih =>
    rw [initBuiltins]
    by_cases h1 : m = "template"
    · rw [if_pos h1]
      exact ih _ _ h
    · rw [if_neg h1]
      by_cases h2 : (isBuiltinName m && initOk i) = true
      · rw [if_pos h2]
        exact ih _ _ (mem_kinsert_mono m h)
      · rw [if_neg h2]
        exact ih _ _ h

/-- The setup loop only ever appends to the warning list. -/
theorem initBuiltins_warned_mono (initOk : Nat → Bool) (ms : List String) (i : Nat)
    (acc : InitResult) {w : String} (h : w ∈ acc.warned) :
    w ∈ (initBuiltins initOk ms i acc).warned := by
  induction ms generalizing i acc with
  | nil => exact h
  | cons m rest ih =>
    rw [initBuiltins]
    by_cases h1 : m = "template"
    · rw [if_pos h1]
      exact ih _ _ h
    · rw [if_neg h1]
      by_cases h2 : (isBuiltinName m && initOk i) = true
      · rw [if_pos h2]
        exact ih _ _ h
      · rw [if_neg h2]
        exact ih _ _ (by simp [h])

/-- The setup loop preserves well-formedness of the dicts: adding a name
adds it consistently to all three and keeps lost flags false and
survival counts zero. -/
theorem initBuiltins_good (initOk : Nat → Bool) (ms : List String) (i : Nat)
    (acc : InitResult) (h : GoodInit acc) : GoodInit (initBuiltins initOk ms i acc) := by
  induction ms generalizing i acc with
  | nil => exact h
  | cons m rest ih =>
    rw [initBuiltins]
    by_cases h1 : m = "template"
    · rw [if_pos h1]
      exact ih _ _ h
    · rw [if_neg h1]
      by_cases h2 : (isBuiltinName m && initOk i) = true
      · rw [if_pos h2]
        apply ih
        obtain ⟨hnd, hlk, hsk, hlv, hsv⟩ := h
        refine ⟨nodup_kinsert m hnd, ?_, ?_, ?_, ?_⟩
        · by_cases hmem : m ∈ acc.trackers
          · simp only
            rw [keys_dinsert_mem false (by rw [hlk]; exact hmem), hlk]
            unfold kinsert
            rw [if_pos hmem]
          · simp only
            rw [keys_dinsert_not_mem false (by rw [hlk]; exact hmem), hlk]
            unfold kinsert
            rw [if_neg hmem]
        · by_cases hmem : m ∈ acc.trackers
          · simp only
            rw [keys_dinsert_mem 0 (by rw [hsk]; exact hmem), hsk]
            unfold kinsert
            rw [if_pos hmem]
          · simp only
            rw [keys_dinsert_not_mem 0 (by rw [hsk]; exact hmem), hsk]
            unfold kinsert
            rw [if_neg hmem]
        · intro p hp
          rcases mem_dinsert_elim hp with hp | hp
          · rw [hp]
          · exact hlv p hp
        · intro p hp
          rcases mem_dinsert_elim hp with hp | hp
          · rw [hp]
          · exact hsv p hp
      · rw [if_neg h2]
        exact ih _ _ h

/-- A name all of whose attempts fail is never added to the `trackers`
key list. -/
theorem initBuiltins_not_mem (initOk : Nat → Bool) (ms : List String) {m : String} :
    ∀ (i : Nat) (acc : InitResult), m ∉ acc.trackers →
    (∀ j, j < ms.length → ms.getD j "" = m → (isBuiltinName m && initOk (i + j)) = false) →
    m ∉ (initBuiltins initOk ms i acc).trackers := by
  induction ms with
  | nil => exact fun i acc h _ => h
  | cons m2 rest ih =>
    intro i acc hacc hfail
    have hfail2 : ∀ j, j < rest.length → rest.getD j "" = m →
        (isBuiltinName m && initOk (i + 1 + j)) = false := by
      intro j hj hje
      have heq : i + 1 + j = i + (j + 1) := by omega
      rw [heq]
      exact hfail (j + 1) (by simpa using Nat.succ_lt_succ hj) (by simpa using hje)
    rw [initBuiltins]
    by_cases h1 : m2 = "template"
    · rw [if_pos h1]
      exact ih _ _ hacc hfail2
    · rw [if_neg h1]
      by_cases h2 : (isBuiltinName m2 && initOk i) = true
      · rw [if_pos h2]
        have hne : m ≠ m2 := by
          intro heq
          subst heq
          have := hfail 0 (by simp) (by simp)
          rw [Nat.add_zero] at this
          rw [this] at h2
          exact absurd h2 (by simp)
        exact ih _ _ (not_mem_kinsert hne hacc) hfail2
      · rw [if_neg h2]
        exact ih _ _ hacc hfail2

/-- Every failed attempt at a non-template name leaves a warning: a name
that occurs and always fails ends up in the warning list. -/
theorem initBuiltins_warned_of_fail (initOk : Nat → Bool) (ms : List String)
    {m : String} (hm : m ≠ "template") : ∀ (i : Nat) (acc : InitResult), m ∈ ms →
    (∀ j, j < ms.length → ms.getD j "" = m → (isBuiltinName m && initOk (i + j)) = false) →
    m ∈ (initBuiltins initOk ms i acc).warned := by
  induction ms with
  | nil => intro i acc h _; simp at h
  | cons m2 rest ih =>
    intro i acc hmem hfail
    have hfail2 : ∀ j, j < rest.length → rest.getD j "" = m →
        (isBuiltinName m && initOk (i + 1 + j)) = false := by
      intro j hj hje
      have heq : i + 1 + j = i + (j + 1) := by omega
      rw [heq]
      exact hfail (j + 1) (by simpa using Nat.succ_lt_succ hj) (by simpa using hje)
    rw [initBuiltins]
    by_cases h1 : m2 = "template"
    · rw [if_pos h1]
      have hmem2 : m ∈ rest := by
        rcases List.mem_cons.mp hmem with h | h
        · exact absurd (h.trans h1) hm
        · exact h
      exact ih _ _ hmem2 hfail2
    · rw [if_neg h1]
      by_cases hme : m = m2
      · subst hme
        have hf0 := hfail 0 (by simp) (by simp)
        rw [Nat.add_zero] at hf0
        rw [if_neg (by rw [hf0]; exact fun hh => absurd hh (by simp))]
        exact initBuiltins_warned_mono initOk rest (i + 1) _ (by simp)
      · have hmem2 : m ∈ rest := by
          rcases List.mem_cons.mp hmem with h | h
          · exact absurd h hme
          · exact h
        by_cases h2 : (isBuiltinName m2 && initOk i) = true
        · rw [if_pos h2]
          exact ih _ _ hmem2 hfail2
        · rw [if_neg h2]
          exact ih _ _ hmem2 hfail2

/-- A name whose attempt at some position succeeds ends up in the
`trackers` key list. -/
theorem initBuiltins_mem_of_success (initOk : Nat → Bool) (ms : List String)
    {m2 : String} : ∀ (i : Nat) (acc : InitResult) (j : Nat), j < ms.length →
    ms.getD j "" = m2 → (isBuiltinName m2 && initOk (i + j)) = true →
    m2 ∈ (initBuiltins initOk ms i acc).trackers := by
  induction ms with
  | nil => intro i acc j hj; simp at hj
  | cons m rest ih =>
    intro i acc j hj hje hsucc
    rw [initBuiltins]
    cases j with
    | zero =>
      simp only [List.getD_cons_zero] at hje
      subst hje
      rw [Nat.add_zero] at hsucc
      have h1 : m ≠ "template" := by
        intro heq
        rw [heq] at hsucc
        have hb : isBuiltinName "template" = false := by decide
        rw [hb] at hsucc
        exact absurd hsucc (by simp)
      rw [if_neg h1, if_pos hsucc]
      exact initBuiltins_trackers_mono initOk rest (i + 1) _ (mem_kinsert_self m _)
    | succ j2 =>
      simp only [List.getD_cons_succ] at hje
      have hj2 : j2 < rest.length := by simpa using hj
      have hsucc2 : (isBuiltinName m2 && initOk (i + 1 + j2)) = true := by
        have heq : i + 1 + j2 = i + (j2 + 1) := by omega
        rw [heq]
        exact hsucc
      by_cases h1 : m = "template"
      · rw [if_pos h1]
        exact ih _ _ j2 hj2 hje hsucc2
      · rw [if_neg h1]
        by_cases h2 : (isBuiltinName m && initOk i) = true
        · rw [if_pos h2]
          exact ih _ _ j2 hj2 hje hsucc2
        · rw [if_neg h2]
          exact ih _ _ j2 hj2 hje hsucc2

/-- When every attempt fails, the setup loop adds nothing to an empty
`trackers` key list. -/
theorem initBuiltins_empty (initOk : Nat → Bool) (ms : List String) :
    ∀ (i : Nat) (acc : InitResult), acc.trackers = [] →
    (∀ j, j < ms.length → (isBuiltinName (ms.getD j "") && initOk (i + j)) = false) →
    (initBuiltins initOk ms i acc).trackers = [] := by
  induction ms with
  | nil => exact fun i acc h _ => h
  | cons m rest ih =>
    intro i acc hacc hfail
    have hfail2 : ∀ j, j < rest.length →
        (isBuiltinName (rest.getD j "") && initOk (i + 1 + j)) = false := by
      intro j hj
      have heq : i + 1 + j = i + (j + 1) := by omega
      rw [heq]
      exact hfail (j + 1) (by simpa using Nat.succ_lt_succ hj)
    rw [initBuiltins]
    by_cases hm : m = "template"
    · rw [if_pos hm]
      exact ih (i + 1) acc hacc hfail2
    · rw [if_neg hm]
      have h0 : (isBuiltinName m && initOk i) = false := by
        have hf := hfail 0 (by simp)
        rw [Nat.add_zero] at hf
        simpa using hf
      rw [if_neg (by rw [h0]; exact fun hh => absurd hh (by simp))]
      exact ih (i + 1) _ hacc hfail2

/-- The dicts built by the whole setup phase are well formed. -/
theorem initTrackers_good (methods : List String) (initOk : Nat → Bool) :
    GoodInit (initTrackers methods initOk) := by
  unfold initTrackers
  apply initBuiltins_good
  split
  · exact ⟨by simp, rfl, rfl, by simp, by simp⟩
  · exact ⟨by simp, rfl, rfl, by simp, by simp⟩

/-- The `use_template` flag records exactly whether the template method
was requested. -/
theorem initTrackers_ut (methods : List String) (initOk : Nat → Bool) :
    (initTrackers methods initOk).use_template = true ↔ "template" ∈ methods := by
  unfold initTrackers
  rw [initBuiltins_ut]
  split
  · next h => simp [h]
  · next h => simp [h]

/-- Whenever the template method is requested, the template pseudo-entry
is created (unconditionally, before any built-in attempt). -/
theorem initTrackers_template_mem (methods : List String) (initOk : Nat → Bool)
    (h : "template" ∈ methods) :
    "template" ∈ (initTrackers methods initOk).trackers := by
  unfold initTrackers
  rw [if_pos h]
  exact initBuiltins_trackers_mono initOk methods 0 _ (by simp)

/-- The loop state built from the setup phase obeys the key discipline. -/
theorem mkState_keyed (methods : List String) (initOk : Nat → Bool) :
    Keyed (mkState (initTrackers methods initOk)) := by
  obtain ⟨-, -, hsk, -, -⟩ := initTrackers_good methods initOk
  refine ⟨hsk, ?_⟩
  intro hu
  exact initTrackers_template_mem methods initOk ((initTrackers_ut methods initOk).mp hu)

/-- A successful run is exactly the frame loop started from the setup
state, together with its summary. -/
theorem run_tracking_ok {Image : Type} (methods : List String) (initOk : Nat → Bool)
    (cfg : Config Image) (frames : List (FrameData Image)) (sf : LoopState)
    (rep : List String) (h : run_tracking methods initOk cfg frames = Except.ok (sf, rep)) :
    sf = runFrames cfg frames (mkState (initTrackers methods initOk)) ∧
      rep = summaryReport sf := by
  unfold run_tracking at h
  split at h
  · exact absurd h (by simp)
  · simp only [Except.ok.injEq, Prod.mk.injEq] at h
    obtain ⟨h1, h2⟩ := h
    rw [h1] at h2
    exact ⟨h1.symm, h2.symm⟩

/-- With an empty `trackers` dict the run aborts with the
`no valid trackers` error, independently of the frame stream. -/
theorem run_tracking_empty {Image : Type} (methods : List String) (initOk : Nat → Bool)
    (cfg : Config Image) (frames : List (FrameData Image))
    (h : (initTrackers methods initOk).trackers = []) :
    run_tracking methods initOk cfg frames
      = Except.error "[ERROR] No valid trackers initialized. Exiting." := by
  unfold run_tracking
  rw [if_pos (by rw [h]; rfl)]

/-- C1: the lost flag is monotonic.  From any loop state in which an
entry's lost flag is true, after any further frames its lost flag is
still true and its survival count is unchanged: the entry is skipped
entirely (no update outcome of any later frame can affect it). -/
theorem lost_monotone_and_skipped {Image : Type} (cfg : Config Image)
    (frames : List (FrameData Image)) (s : LoopState) (name : String)
    (h : dget s.lost name = some true) :
    dget (runFrames cfg frames s).lost name = some true ∧
      dget (runFrames cfg frames s).survival name = dget s.survival name :=
  runFrames_lost_true cfg frames s h

/-- Witness for C1 at a concrete lost entry and two further frames. -/
theorem lost_monotone_and_skipped_witness :
    dget c1State.lost "csrt" = some true ∧
      (dget (runFrames qCfg [okFrame, badFrame] c1State).lost "csrt" = some true ∧
        dget (runFrames qCfg [okFrame, badFrame] c1State).survival "csrt"
          = dget c1State.survival "csrt") :=
  ⟨by decide, lost_monotone_and_skipped qCfg [okFrame, badFrame] c1State "csrt" (by decide)⟩

/-- C2: per frame, every survival count grows by at most one and only
while the entry is not lost; consequently, in every completed run every
entry's survival count is at most the total frame counter. -/
theorem survival_le_total :
    (∀ (Image : Type) (cfg : Config Image) (fd : FrameData Image) (s : LoopState)
        (k : String), s.trackers.Nodup →
        dgetD (stepFrame cfg fd s).survival k 0 ≤ dgetD s.survival k 0 + 1 ∧
          (dget s.lost k = some true →
            dget (stepFrame cfg fd s).survival k = dget s.survival k)) ∧
    (∀ (Image : Type) (methods : List String) (initOk : Nat → Bool) (cfg : Config Image)
        (frames : List (FrameData Image)) (sf : LoopState) (rep : List String),
        run_tracking methods initOk cfg frames = Except.ok (sf, rep) →
        ∀ name c, dget sf.survival name = some c → c ≤ sf.total_frames) := by
  constructor
  · intro Image cfg fd s k hnd
    exact ⟨stepFrame_surv_le cfg fd k s hnd,
      fun h => (stepFrame_lost_true cfg fd s h).2⟩
  · intro Image methods initOk cfg frames sf rep h name c hc
    obtain ⟨hsf, -⟩ := run_tracking_ok methods initOk cfg frames sf rep h
    subst hsf
    have hnd : (mkState (initTrackers methods initOk)).trackers.Nodup :=
      (initTrackers_good methods initOk).1
    have hb : ∀ k, dgetD (mkState (initTrackers methods initOk)).survival k 0
        ≤ (mkState (initTrackers methods initOk)).total_frames := by
      intro k
      have hz := (initTrackers_good methods initOk).2.2.2.2
      cases hdg : dget (initTrackers methods initOk).survival k with
      | none => simp [dgetD, mkState, hdg]
      | some v =>
        have hv : v = 0 := hz _ (mem_of_dget hdg)
        simp [dgetD, mkState, hdg, hv]
    have hle := runFrames_surv_le cfg frames (mkState (initTrackers methods initOk)) hnd hb name
    rw [dgetD, hc] at hle
    exact hle

/-- Witness for C2 on a completed one-frame csrt session. -/
theorem survival_le_total_witness :
    run_tracking ["csrt"] initOkAll qCfg [okFrame] = Except.ok (c2Final, summaryReport c2Final) ∧
      dget c2Final.survival "csrt" = some 1 ∧ 1 ≤ c2Final.total_frames :=
  ⟨rfl, by decide,
    survival_le_total.2 ℚ ["csrt"] initOkAll qCfg [okFrame] c2Final
      (summaryReport c2Final) rfl "csrt" 1 (by decide)⟩

/-- C7: the total counter increments exactly once per processed frame,
for every state of the entries (in particular when all are lost), and
with no cancellation the loop consumes the whole stream, counting each
frame once. -/
theorem frame_counter_exact :
    (∀ (Image : Type) (cfg : Config Image) (fd : FrameData Image) (s : LoopState),
        (stepFrame cfg fd s).total_frames = s.total_frames + 1) ∧
    (∀ (Image : Type) (cfg : Config Image) (frames : List (FrameData Image))
        (s : LoopState), (∀ fd ∈ frames, fd.quitKey = false) →
        (runFrames cfg frames s).total_frames = s.total_frames + frames.length) :=
  ⟨fun _ cfg fd s => stepFrame_total cfg fd s,
    fun _ cfg frames s h => runFrames_total cfg frames s h⟩

/-- Witness for C7, counting two frames through a state whose only entry
is already lost. -/
theorem frame_counter_exact_witness :
    (stepFrame qCfg badFrame c1State).total_frames = c1State.total_frames + 1 ∧
      ((∀ fd ∈ [okFrame, badFrame], fd.quitKey = false) ∧
        (runFrames qCfg [okFrame, badFrame] c1State).total_frames
          = c1State.total_frames + 2) :=
  ⟨frame_counter_exact.1 ℚ qCfg badFrame c1State,
    by decide, frame_counter_exact.2 ℚ qCfg [okFrame, badFrame] c1State (by decide)⟩

/-- The template entry after a whole frame is exactly the template entry
after the template block (the built-in loop leaves it alone). -/
theorem stepFrame_template_eq {Image : Type} (cfg : Config Image) (fd : FrameData Image)
    (s : LoopState) :
    dget (stepFrame cfg fd s).lost "template"
        = dget (templateStep cfg fd { s with total_frames := s.total_frames + 1 }).lost "template" ∧
      dget (stepFrame cfg fd s).survival "template"
        = dget (templateStep cfg fd { s with total_frames := s.total_frames + 1 }).survival "template" := by
  unfold stepFrame
  exact builtinLoop_template fd _ _

/-- The template block's effect on the template entry depends only on the
grayscale frame (through the matcher), the fixed template, and the
entry's own current state. -/
theorem templateStep_congr {Image : Type} (cfg : Config Image)
    (fd fd2 : FrameData Image) (s s2 : LoopState)
    (hg : cfg.cvtColor fd.frame = cfg.cvtColor fd2.frame)
    (hut : s.use_template = s2.use_template)
    (hl : dget s.lost "template" = dget s2.lost "template")
    (hs : dget s.survival "template" = dget s2.survival "template") :
    dget (templateStep cfg fd s).lost "template"
        = dget (templateStep cfg fd2 s2).lost "template" ∧
      dget (templateStep cfg fd s).survival "template"
        = dget (templateStep cfg fd2 s2).survival "template" := by
  have hmv : matchStep cfg fd = matchStep cfg fd2 := by
    unfold matchStep
    rw [hg]
  unfold templateStep
  by_cases hc : s.use_template = true ∧ dgetD s.lost "template" false = false
  · have hc2 : s2.use_template = true ∧ dgetD s2.lost "template" false = false :=
      ⟨by rw [← hut]; exact hc.1, by rw [dgetD, ← hl]; exact hc.2⟩
    rw [if_pos hc, if_pos hc2, hmv]
    by_cases hlow : (matchStep cfg fd2).1 < threshold
    · rw [if_pos hlow, if_pos hlow]
      constructor
      · rw [dget_dinsert_self, dget_dinsert_self]
      · exact hs
    · rw [if_neg hlow, if_neg hlow]
      constructor
      · exact hl
      · rw [dget_dinsert_self, dget_dinsert_self, dgetD, dgetD, hs]
  · have hc2 : ¬ (s2.use_template = true ∧ dgetD s2.lost "template" false = false) := by
      intro h2
      exact hc ⟨by rw [hut]; exact h2.1, by rw [dgetD, hl]; exact h2.2⟩
    rw [if_neg hc, if_neg hc2]
    exact ⟨hl, hs⟩

/-- C3: threshold policy for the template entry.  While not lost, a
confidence below 0.5 permanently marks it lost without incrementing its
survival count, and any other confidence increments the count by one;
and for the confidence sequence 0.9, 0.8, 0.4, 0.9 the entry survives 2
frames, becomes lost on the third frame, and the fourth frame leaves its
state untouched while the counter still reaches 4. -/
theorem template_threshold_and_scenario :
    (∀ (Image : Type) (cfg : Config Image) (fd : FrameData Image) (s : LoopState),
        s.use_template = true → dget s.lost "template" = some false →
        ((matchStep cfg fd).1 < threshold →
          dget (stepFrame cfg fd s).lost "template" = some true ∧
            dget (stepFrame cfg fd s).survival "template" = dget s.survival "template") ∧
        (¬ (matchStep cfg fd).1 < threshold →
          dget (stepFrame cfg fd s).lost "template" = some false ∧
            dget (stepFrame cfg fd s).survival "template"
              = some (dgetD s.survival "template" 0 + 1))) ∧
    (run_tracking ["template"] initOkAll qCfg tmFrames
        = Except.ok (tmFinal, summaryReport tmFinal) ∧
      mkState (initTrackers ["template"] initOkAll) = tmInit ∧
      dget (runFrames qCfg (tmFrames.take 2) tmInit).lost "template" = some false ∧
      dget (runFrames qCfg (tmFrames.take 2) tmInit).survival "template" = some 2 ∧
      dget (runFrames qCfg (tmFrames.take 3) tmInit).lost "template" = some true ∧
      dget (runFrames qCfg (tmFrames.take 3) tmInit).survival "template" = some 2 ∧
      runFrames qCfg tmFrames tmInit = tmFinal ∧
      (runFrames qCfg tmFrames tmInit).lost
        = (runFrames qCfg (tmFrames.take 3) tmInit).lost ∧
      (runFrames qCfg tmFrames tmInit).survival
        = (runFrames qCfg (tmFrames.take 3) tmInit).survival) := by
  constructor
  · intro Image cfg fd s hut hl
    obtain ⟨hbl, hbs⟩ := stepFrame_template_eq cfg fd s
    have hact := templateStep_active cfg fd { s with total_frames := s.total_frames + 1 } hut hl
    constructor
    · intro hlow
      rw [hbl, hbs, hact.1 hlow]
      exact ⟨dget_dinsert_self _ _ _, rfl⟩
    · intro hhigh
      rw [hbl, hbs, hact.2 hhigh]
      exact ⟨hl, dget_dinsert_self _ _ _⟩
  · exact ⟨rfl, by decide, by decide, by decide, by decide, by decide, by decide,
      by decide, by decide⟩

/-- Witness for C3: the low-confidence frame 0.4 marks the template
entry lost without touching its survival count. -/
theorem template_threshold_and_scenario_witness :
    tmInit.use_template = true ∧ dget tmInit.lost "template" = some false ∧
      (matchStep qCfg (qFrame (mkRat 4 10))).1 < threshold ∧
      (dget (stepFrame qCfg (qFrame (mkRat 4 10)) tmInit).lost "template" = some true ∧
        dget (stepFrame qCfg (qFrame (mkRat 4 10)) tmInit).survival "template"
          = dget tmInit.survival "template") :=
  ⟨by decide, by decide, by decide,
    (template_threshold_and_scenario.1 ℚ qCfg (qFrame (mkRat 4 10)) tmInit
      (by decide) (by decide)).1 (by decide)⟩

/-- C9: the match step is a pure function of the grayscale frame and the
fixed template: two frames with the same grayscale image, matched while
the template entry is in the same state, yield the same confidence and
location and the same effect on the template entry. -/
theorem template_match_deterministic {Image : Type} (cfg : Config Image)
    (fd fd2 : FrameData Image) (s s2 : LoopState)
    (hg : cfg.cvtColor fd.frame = cfg.cvtColor fd2.frame)
    (hut : s.use_template = s2.use_template)
    (hl : dget s.lost "template" = dget s2.lost "template")
    (hs : dget s.survival "template" = dget s2.survival "template") :
    matchStep cfg fd = matchStep cfg fd2 ∧
      dget (stepFrame cfg fd s).lost "template"
        = dget (stepFrame cfg fd2 s2).lost "template" ∧
      dget (stepFrame cfg fd s).survival "template"
        = dget (stepFrame cfg fd2 s2).survival "template" := by
  have hmv : matchStep cfg fd = matchStep cfg fd2 := by
    unfold matchStep
    rw [hg]
  obtain ⟨hbl, hbs⟩ := stepFrame_template_eq cfg fd s
  obtain ⟨hbl2, hbs2⟩ := stepFrame_template_eq cfg fd2 s2
  obtain ⟨hcl, hcs⟩ := templateStep_congr cfg fd fd2
    { s with total_frames := s.total_frames + 1 }
    { s2 with total_frames := s2.total_frames + 1 } hg hut hl hs
  exact ⟨hmv, hbl.trans (hcl.trans hbl2.symm), hbs.trans (hcs.trans hbs2.symm)⟩

/-- Witness for C9: two distinct frames with equal grayscale images give
identical match results and identical template bookkeeping. -/
theorem template_match_deterministic_witness :
    c9Cfg.cvtColor (qFrame 1).frame = c9Cfg.cvtColor (qFrame 2).frame ∧
      (matchStep c9Cfg (qFrame 1) = matchStep c9Cfg (qFrame 2) ∧
        dget (stepFrame c9Cfg (qFrame 1) tmInit).lost "template"
          = dget (stepFrame c9Cfg (qFrame 2) tmInit).lost "template" ∧
        dget (stepFrame c9Cfg (qFrame 1) tmInit).survival "template"
          = dget (stepFrame c9Cfg (qFrame 2) tmInit).survival "template") :=
  ⟨rfl, template_match_deterministic c9Cfg (qFrame 1) (qFrame 2) tmInit tmInit
    rfl rfl rfl rfl⟩

/-- C4: loss policy of the built-in entries.  While not lost, an update
reporting failure, or a box of non-positive width or height, marks the
entry lost without incrementing its survival count; otherwise the count
grows by one; and concretely an update returning success with box
(10, 10, 0, 5) marks the entry lost with its count unchanged. -/
theorem builtin_update_loss_and_scenario :
    (∀ (Image : Type) (cfg : Config Image) (fd : FrameData Image) (s : LoopState)
        (name : String), name ≠ "template" → name ∈ s.trackers → s.trackers.Nodup →
        dget s.lost name = some false →
        (((fd.updateRes name).1 = false ∨ (fd.updateRes name).2.2.2.1 ≤ 0 ∨
            (fd.updateRes name).2.2.2.2 ≤ 0 →
          dget (stepFrame cfg fd s).lost name = some true ∧
            dget (stepFrame cfg fd s).survival name = dget s.survival name) ∧
        ((fd.updateRes name).1 = true → 0 < (fd.updateRes name).2.2.2.1 →
            0 < (fd.updateRes name).2.2.2.2 →
          dget (stepFrame cfg fd s).lost name = some false ∧
            dget (stepFrame cfg fd s).survival name
              = some (dgetD s.survival name 0 + 1)))) ∧
    (run_tracking ["csrt"] initOkAll qCfg [badFrame]
        = Except.ok (c4Final, summaryReport c4Final) ∧
      dget c4Final.lost "csrt" = some true ∧
      dget c4Final.survival "csrt" = some 0 ∧ c4Final.total_frames = 1) := by
  constructor
  · intro Image cfg fd s name hnt hmem hnd hl
    set s2 := templateStep cfg fd { s with total_frames := s.total_frames + 1 } with hs2def
    obtain ⟨hT1, hT2⟩ := templateStep_ne cfg fd { s with total_frames := s.total_frames + 1 } hnt
    have htr : s2.trackers = s.trackers := (templateStep_frame cfg fd _).1
    obtain ⟨l1, l2, hsplit⟩ := List.append_of_mem hmem
    have hnd2 : (l1 ++ name :: l2).Nodup := by rw [← hsplit]; exact hnd
    rw [List.nodup_append] at hnd2
    obtain ⟨hnd_l1, hnd_cons, hdisj⟩ := hnd2
    rw [List.nodup_cons] at hnd_cons
    have hn_l1 : name ∉ l1 := fun hmm => hdisj hmm (List.mem_cons_self name l2)
    have hn_l2 : name ∉ l2 := hnd_cons.1
    set s3 := builtinLoop fd l1 s2 with hs3def
    have hstep : stepFrame cfg fd s = builtinLoop fd l2 (builtinStep fd name s3) := by
      unfold stepFrame
      rw [← hs2def, htr, hsplit, builtinLoop_append, builtinLoop, ← hs3def]
    obtain ⟨hL1, hL2⟩ := builtinLoop_not_mem fd s2 hn_l1
    have hl3 : dget s3.lost name = some false := by
      rw [← hs3def] at hL1
      rw [hL1, hT1]
      exact hl
    have hs3v : dget s3.survival name = dget s.survival name := by
      rw [← hs3def] at hL2
      rw [hL2, hT2]
    obtain ⟨hAct1, hAct2⟩ := builtinStep_active fd name s3 hnt hl3
    constructor
    · intro hbad
      rw [hstep, hAct1 hbad]
      obtain ⟨hP1, hP2⟩ := builtinLoop_not_mem fd
        { s3 with lost := dinsert name true s3.lost } hn_l2
      constructor
      · rw [hP1]
        exact dget_dinsert_self _ _ _
      · rw [hP2]
        exact hs3v
    · intro hok hw hh
      rw [hstep, hAct2 hok hw hh]
      obtain ⟨hP1, hP2⟩ := builtinLoop_not_mem fd
        { s3 with survival := dinsert name (dgetD s3.survival name 0 + 1) s3.survival } hn_l2
      constructor
      · rw [hP1]
        exact hl3
      · rw [hP2]
        show dget (dinsert name (dgetD s3.survival name 0 + 1) s3.survival) name
          = some (dgetD s.survival name 0 + 1)
        rw [dget_dinsert_self, dgetD, dgetD, hs3v]
  · exact ⟨rfl, by decide, by decide, by decide⟩

/-- Witness for C4: a successful update with a zero-width box marks the
live csrt entry lost and leaves its survival count unchanged. -/
theorem builtin_update_loss_and_scenario_witness :
    ("csrt" : String) ≠ "template" ∧ "csrt" ∈ c2Final.trackers ∧
      c2Final.trackers.Nodup ∧ dget c2Final.lost "csrt" = some false ∧
      (dget (stepFrame qCfg badFrame c2Final).lost "csrt" = some true ∧
        dget (stepFrame qCfg badFrame c2Final).survival "csrt"
          = dget c2Final.survival "csrt") :=
  ⟨by decide, by decide, by decide, by decide,
    (builtin_update_loss_and_scenario.1 ℚ qCfg badFrame c2Final "csrt" (by decide)
      (by decide) (by decide) (by decide)).1 (by decide)⟩

/-- C5: a built-in method all of whose attempts raise is warned about and
excluded entirely: it is in none of the dicts and never appears among the
reported `survival` entries of a completed run, while successfully
constructed methods are present and the template method, when requested,
is present unconditionally. -/
theorem failed_method_excluded (methods : List String) (initOk : Nat → Bool)
    (m : String) (hm : m ≠ "template")
    (hfail : ∀ j, j < methods.length → methods.getD j "" = m →
      (isBuiltinName m && initOk j) = false) :
    m ∉ (initTrackers methods initOk).trackers ∧
      dget (initTrackers methods initOk).lost m = none ∧
      dget (initTrackers methods initOk).survival m = none ∧
      (m ∈ methods → m ∈ (initTrackers methods initOk).warned) ∧
      ("template" ∈ methods → "template" ∈ (initTrackers methods initOk).trackers) ∧
      (∀ j m2, j < methods.length → methods.getD j "" = m2 →
        (isBuiltinName m2 && initOk j) = true →
        m2 ∈ (initTrackers methods initOk).trackers) ∧
      (∀ (Image : Type) (cfg : Config Image) (frames : List (FrameData Image))
        (sf : LoopState) (rep : List String),
        run_tracking methods initOk cfg frames = Except.ok (sf, rep) →
        dget sf.survival m = none ∧ ∀ p ∈ sf.survival, p.1 ≠ m) := by
  have hfail0 : ∀ j, j < methods.length → methods.getD j "" = m →
      (isBuiltinName m && initOk (0 + j)) = false := by
    intro j hj hje
    rw [Nat.zero_add]
    exact hfail j hj hje
  have hnotmem : m ∉ (initTrackers methods initOk).trackers := by
    unfold initTrackers
    apply initBuiltins_not_mem initOk methods 0 _ _ hfail0
    split
    · simp [hm]
    · simp
  have hgood := initTrackers_good methods initOk
  refine ⟨hnotmem, ?_, ?_, ?_, ?_, ?_, ?_⟩
  · exact dget_eq_none (by rw [hgood.2.1]; exact hnotmem)
  · exact dget_eq_none (by rw [hgood.2.2.1]; exact hnotmem)
  · intro hmem
    unfold initTrackers
    exact initBuiltins_warned_of_fail initOk methods hm 0 _ hmem hfail0
  · exact initTrackers_template_mem methods initOk
  · intro j m2 hj hje hsucc
    unfold initTrackers
    apply initBuiltins_mem_of_success initOk methods 0 _ j hj hje
    rw [Nat.zero_add]
    exact hsucc
  · intro Image cfg frames sf rep h
    obtain ⟨hsf, -⟩ := run_tracking_ok methods initOk cfg frames sf rep h
    subst hsf
    obtain ⟨hkeys, -, -⟩ := runFrames_keys cfg frames
      (mkState (initTrackers methods initOk)) (mkState_keyed methods initOk)
    have hkm : m ∉ (runFrames cfg frames
        (mkState (initTrackers methods initOk))).survival.map Prod.fst := by
      rw [hkeys]
      show m ∉ (initTrackers methods initOk).survival.map Prod.fst
      rw [hgood.2.2.1]
      exact hnotmem
    refine ⟨dget_eq_none hkm, ?_⟩
    intro p hp hpeq
    exact hkm (List.mem_map.mpr ⟨p, hp, hpeq⟩)

/-- Witness for C5: with csrt raising and kcf succeeding, csrt is warned
about and absent everywhere while kcf and the run proceed. -/
theorem failed_method_excluded_witness :
    ("csrt" : String) ≠ "template" ∧
      "csrt" ∉ (initTrackers ["csrt", "kcf"] initOkSecond).trackers ∧
      dget (initTrackers ["csrt", "kcf"] initOkSecond).lost "csrt" = none ∧
      "csrt" ∈ (initTrackers ["csrt", "kcf"] initOkSecond).warned ∧
      "kcf" ∈ (initTrackers ["csrt", "kcf"] initOkSecond).trackers ∧
      (dget (mkState (initTrackers ["csrt", "kcf"] initOkSecond)).survival "csrt" = none ∧
        ∀ p ∈ (mkState (initTrackers ["csrt", "kcf"] initOkSecond)).survival,
          p.1 ≠ "csrt") := by
  have hmain := failed_method_excluded ["csrt", "kcf"] initOkSecond "csrt"
    (by decide) (by decide)
  exact ⟨by decide, hmain.1, hmain.2.1, hmain.2.2.2.1 (by decide),
    hmain.2.2.2.2.2.1 1 "kcf" (by decide) (by decide) (by decide),
    hmain.2.2.2.2.2.2 ℚ qCfg []
      (mkState (initTrackers ["csrt", "kcf"] initOkSecond))
      (summaryReport (mkState (initTrackers ["csrt", "kcf"] initOkSecond))) rfl⟩

/-- C6: when no method at all could be constructed, the session aborts
with the `no valid trackers` error: the result is the error outcome for
every frame stream, so no frame is consumed and no summary exists. -/
theorem no_valid_trackers_abort (methods : List String) (initOk : Nat → Bool)
    (h1 : "template" ∉ methods)
    (h2 : ∀ j, j < methods.length →
      (isBuiltinName (methods.getD j "") && initOk j) = false) :
    (initTrackers methods initOk).trackers = [] ∧
      ∀ (Image : Type) (cfg : Config Image) (frames : List (FrameData Image)),
        run_tracking methods initOk cfg frames
          = Except.error "[ERROR] No valid trackers initialized. Exiting." := by
  have hempty : (initTrackers methods initOk).trackers = [] := by
    unfold initTrackers
    rw [if_neg h1]
    apply initBuiltins_empty initOk methods 0 _ rfl
    intro j hj
    rw [Nat.zero_add]
    exact h2 j hj
  exact ⟨hempty, fun Image cfg frames =>
    run_tracking_empty methods initOk cfg frames hempty⟩

/-- Witness for C6: requesting only csrt with its construction raising
gives an empty tracker set and the error outcome, frames untouched. -/
theorem no_valid_trackers_abort_witness :
    ("template" : String) ∉ ["csrt"] ∧
      (initTrackers ["csrt"] initOkNone).trackers = [] ∧
      run_tracking ["csrt"] initOkNone qCfg [okFrame]
        = Except.error "[ERROR] No valid trackers initialized. Exiting." := by
  have hmain := no_valid_trackers_abort ["csrt"] initOkNone (by decide) (by decide)
  exact ⟨by decide, hmain.1, hmain.2 ℚ qCfg [okFrame]⟩

/-- Counterexample to C8 as stated: in a concrete completed run, the
emitted report is not the claimed
`Total frames processed: <t>` directly followed by lines of the exact
form `<name>: survived <s> / <t> frames` — the run prints a blank line
and a banner first, and pads the name to width 9 before the colon. -/
theorem summary_format_counterexample :
    run_tracking ["csrt"] initOkAll qCfg [badFrame]
        = Except.ok (c4Final, summaryReport c4Final) ∧
      summaryReport c4Final
        = ["", "=== Tracking survival summary ===", "Total frames processed: 1",
            "csrt     : survived 0 / 1 frames"] ∧
      specReportForm c4Final
        = ["Total frames processed: 1", "csrt: survived 0 / 1 frames"] ∧
      summaryReport c4Final ≠ specReportForm c4Final :=
  ⟨rfl, by decide, by decide, by decide⟩

/-- C8 (amended): on termination the report is a blank line, the banner
`=== Tracking survival summary ===`, the line
`Total frames processed: <t>`, then exactly one line per initialized
tracker, in initialization order and including entries marked lost, of
the form `<name left-justified to width 9>: survived <s> / <t> frames`. -/
theorem summary_shape_amended {Image : Type} (methods : List String)
    (initOk : Nat → Bool) (cfg : Config Image) (frames : List (FrameData Image))
    (sf : LoopState) (rep : List String)
    (h : run_tracking methods initOk cfg frames = Except.ok (sf, rep)) :
    rep = "" :: "=== Tracking survival summary ===" ::
        ("Total frames processed: " ++ toString sf.total_frames) ::
        sf.survival.map (fun p => reportLine p.1 p.2 sf.total_frames) ∧
      sf.survival.map Prod.fst = (initTrackers methods initOk).trackers := by
  obtain ⟨hsf, hrep⟩ := run_tracking_ok methods initOk cfg frames sf rep h
  constructor
  · rw [hrep]
    rfl
  · subst hsf
    obtain ⟨hkeys, -, -⟩ := runFrames_keys cfg frames
      (mkState (initTrackers methods initOk)) (mkState_keyed methods initOk)
    rw [hkeys]
    exact (initTrackers_good methods initOk).2.2.1

/-- Witness for the amended C8 on a completed one-frame csrt run. -/
theorem summary_shape_amended_witness :
    run_tracking ["csrt"] initOkAll qCfg [okFrame]
        = Except.ok (c2Final, summaryReport c2Final) ∧
      (summaryReport c2Final = "" :: "=== Tracking survival summary ===" ::
          ("Total frames processed: " ++ toString c2Final.total_frames) ::
          c2Final.survival.map (fun p => reportLine p.1 p.2 c2Final.total_frames) ∧
        c2Final.survival.map Prod.fst = (initTrackers ["csrt"] initOkAll).trackers) :=
  ⟨rfl, summary_shape_amended ["csrt"] initOkAll qCfg [okFrame] c2Final
    (summaryReport c2Final) rfl⟩

/-- C10: the name-keyed dicts collapse duplicate method requests.  After
setup the `trackers` key list has no duplicates, `lost` and `survival`
are keyed exactly by it with flags reset to false and counts reset to 0,
and any completed run reports exactly one summary line per distinct
initialized name, in initialization order. -/
theorem duplicate_methods_collapse (methods : List String) (initOk : Nat → Bool) :
    (initTrackers methods initOk).trackers.Nodup ∧
      (initTrackers methods initOk).lost.map Prod.fst
        = (initTrackers methods initOk).trackers ∧
      (initTrackers methods initOk).survival.map Prod.fst
        = (initTrackers methods initOk).trackers ∧
      (∀ p ∈ (initTrackers methods initOk).lost, p.2 = false) ∧
      (∀ p ∈ (initTrackers methods initOk).survival, p.2 = 0) ∧
      (∀ (Image : Type) (cfg : Config Image) (frames : List (FrameData Image))
        (sf : LoopState) (rep : List String),
        run_tracking methods initOk cfg frames = Except.ok (sf, rep) →
        sf.survival.map Prod.fst = (initTrackers methods initOk).trackers ∧
          (sf.survival.map Prod.fst).Nodup ∧
          rep.length = 3 + sf.survival.length) := by
  obtain ⟨hnd, hlk, hsk, hlv, hsv⟩ := initTrackers_good methods initOk
  refine ⟨hnd, hlk, hsk, hlv, hsv, ?_⟩
  intro Image cfg frames sf rep h
  obtain ⟨hsf, hrep⟩ := run_tracking_ok methods initOk cfg frames sf rep h
  subst hsf
  obtain ⟨hkeys, -, -⟩ := runFrames_keys cfg frames
    (mkState (initTrackers methods initOk)) (mkState_keyed methods initOk)
  have hkeq : (runFrames cfg frames
      (mkState (initTrackers methods initOk))).survival.map Prod.fst
      = (initTrackers methods initOk).trackers := by
    rw [hkeys]
    exact hsk
  refine ⟨hkeq, by rw [hkeq]; exact hnd, ?_⟩
  rw [hrep]
  unfold summaryReport
  simp only [List.length_cons, List.length_map]
  omega

/-- Witness for C10: requesting csrt twice yields a single csrt entry
and a single csrt summary line. -/
theorem duplicate_methods_collapse_witness :
    (initTrackers ["csrt", "csrt"] initOkAll).trackers = ["csrt"] ∧
      (initTrackers ["csrt", "csrt"] initOkAll).trackers.Nodup ∧
      run_tracking ["csrt", "csrt"] initOkAll qCfg ([] : List (FrameData ℚ))
        = Except.ok (mkState (initTrackers ["csrt", "csrt"] initOkAll),
            summaryReport (mkState (initTrackers ["csrt", "csrt"] initOkAll))) ∧
      ((mkState (initTrackers ["csrt", "csrt"] initOkAll)).survival.map Prod.fst
          = (initTrackers ["csrt", "csrt"] initOkAll).trackers ∧
        ((mkState (initTrackers ["csrt", "csrt"] initOkAll)).survival.map Prod.fst).Nodup ∧
        (summaryReport (mkState (initTrackers ["csrt", "csrt"] initOkAll))).length
          = 3 + (mkState (initTrackers ["csrt", "csrt"] initOkAll)).survival.length) :=
  ⟨by decide, (duplicate_methods_collapse ["csrt", "csrt"] initOkAll).1, rfl,
    (duplicate_methods_collapse ["csrt", "csrt"] initOkAll).2.2.2.2.2 ℚ qCfg []
      (mkState (initTrackers ["csrt", "csrt"] initOkAll))
      (summaryReport (mkState (initTrackers ["csrt", "csrt"] initOkAll))) rfl⟩

end TrackerApp
